import Mathlib

/-
Shallow embedding of the processing repository's two algorithmic scripts:

* `src/montecarlo/mc_postprocess.py` — dag parsing (`get_dag_information`),
  per-group output validation and merging (`merge_files`, `run_main`);
* `src/montecarlo/fax_waveform/BatchMergeTruthAndProcessed.py` — the
  truth/processed identifier correlation, the submission throttle loop and
  the temporary-workspace lifecycle.

Python strings are embedded as `List Char` with hand-rolled, structurally
recursive versions of `split`, `join`, `startswith` and `endswith`, so that
every definition evaluates inside the kernel.  Fallible Python operations
(indexing, `del`, tuple unpacking, name lookup) return `Except PyErr`.
External effects (the `hadd` merge command, `os.path` probes, `os.rename`,
`squeue` occupancy queries, `sbatch`) are modelled as explicit environment
records injected into the embedded functions.
-/

/-- Kinds of Python exception the embedded code can raise. -/
inductive PyErr
  | indexError
  | valueError
  | nameError
  deriving DecidableEq

/-- A Python string, embedded as its character list. -/
abbrev PyStr := List Char

/-- `s.startswith(p)` on character lists. -/
def pyStartswith : PyStr → PyStr → Bool
  | [], _ => true
  | _ :: _, [] => false
  | a :: as, b :: bs => a == b && pyStartswith as bs

/-- `s.endswith(p)` on character lists. -/
def pyEndswith (p s : PyStr) : Bool :=
  pyStartswith p.reverse s.reverse

/-- Worker for `pySplit`; the fuel argument starts at the string length and
makes the recursion structural (every step consumes at least one char). -/
def pySplitGo (sep : PyStr) : Nat → PyStr → List PyStr
  | _, [] => [[]]
  | 0, rest => [rest]
  | n + 1, c :: cs =>
    if pyStartswith sep (c :: cs) then
      [] :: pySplitGo sep n (cs.drop (sep.length - 1))
    else
      match pySplitGo sep n cs with
      | [] => [[c]]
      | r :: rs => (c :: r) :: rs

/-- Python `s.split(sep)` for a non-empty separator: non-overlapping,
left-to-right, keeping empty pieces (`"".split(sep) == ['']`). -/
def pySplit (sep s : PyStr) : List PyStr :=
  pySplitGo sep s.length s

/-- Python `sep.join(parts)`. -/
def pyJoin (sep : PyStr) : List PyStr → PyStr
  | [] => []
  | [x] => x
  | x :: xs => x ++ sep ++ pyJoin sep xs

/-- Python `l[i]` for a non-negative index: raises `IndexError` out of range. -/
def pyIndex (l : List α) (i : Nat) : Except PyErr α :=
  match l.get? i with
  | some a => Except.ok a
  | none => Except.error PyErr.indexError

/-- Python `del l[i]` for a non-negative index: raises `IndexError` out of
range, otherwise removes the element. -/
def pyDelIdx (l : List α) (i : Nat) : Except PyErr (List α) :=
  if i < l.length then Except.ok (l.eraseIdx i) else Except.error PyErr.indexError

/-- The external world observed by `merge_files` (`mc_postprocess.py`,
lines 46-79): whether the `hadd` subprocess exits cleanly, which directories
and files exist when probed, and whether `os.rename` succeeds. -/
structure MergeEnv where
  haddSucceeds : Bool
  dirExists : PyStr → Bool
  fileExists : PyStr → Bool
  renameSucceeds : Bool

/-- A `MergeEnv` in which every external step succeeds. -/
def okEnv : MergeEnv :=
  ⟨true, fun _ => true, fun _ => true, true⟩

/-- A `MergeEnv` in which the external `hadd` merge command fails. -/
def failHaddEnv : MergeEnv :=
  ⟨false, fun _ => true, fun _ => true, true⟩

/-- `merge_files(file_list, result_dir)` from `mc_postprocess.py` lines 46-79:
take the first file name, drop the fourth `_`-separated field to derive the
combined name, run `hadd`, then check the results directory and combined file
and move the result.  Returns `True` on success, `False` on each guarded
failure; unguarded operations raise. -/
def merge_files (env : MergeEnv) (file_list : List PyStr) (result_dir : PyStr) :
    Except PyErr Bool :=
  match pyIndex file_list 0 with
  | Except.error e => Except.error e
  | Except.ok sample_file =>
    match pyDelIdx (pySplit "_".data sample_file) 3 with
    | Except.error e => Except.error e
    | Except.ok fields =>
      let output_file := pyJoin "_".data fields
      if !env.haddSucceeds then Except.ok false
      else if !env.dirExists result_dir then Except.ok false
      else if !env.fileExists output_file then Except.ok false
      else if !env.renameSucceeds then Except.ok false
      else Except.ok true

/-- C10: `merge_files` is partial at its interface: an empty file list, or a
first file name with fewer than four `_`-separated fields, raises
`IndexError` (from `file_list[0]` resp. `del fields[3]`) whatever the
environment does; and whenever it returns `False`, one of the four guarded
external failures (merge command, missing results directory, missing
combined file, failed move) actually occurred. -/
theorem merge_files_partiality :
    (∀ env rd, merge_files env [] rd = Except.error PyErr.indexError) ∧
    (∀ env rd f fs, (pySplit "_".data f).length < 4 →
      merge_files env (f :: fs) rd = Except.error PyErr.indexError) ∧
    (∀ env rd fl, merge_files env fl rd = Except.ok false →
      env.haddSucceeds = false ∨ env.dirExists rd = false ∨
      (∃ out, env.fileExists out = false) ∨ env.renameSucceeds = false) := by
  refine ⟨fun env rd => rfl, fun env rd f fs h => ?_, fun env rd fl h => ?_⟩
  · have hlt : ¬ 3 < (pySplit "_".data f).length := by omega
    simp [merge_files, pyIndex, pyDelIdx, hlt]
  · rcases fl with _ | ⟨f, fs⟩
    · simp [merge_files, pyIndex] at h
    · by_cases h3 : 3 < (pySplit "_".data f).length
      · simp only [merge_files, pyIndex, pyDelIdx, List.get?, h3, if_pos] at h
        by_cases h1 : env.haddSucceeds
        · by_cases h2 : env.dirExists rd
          · by_cases h4 : env.fileExists (pyJoin "_".data ((pySplit "_".data f).eraseIdx 3))
            · by_cases h5 : env.renameSucceeds
              · simp [h1, h2, h4, h5] at h
              · exact Or.inr (Or.inr (Or.inr (by simpa using h5)))
            · exact Or.inr (Or.inr (Or.inl ⟨_, by simpa using h4⟩))
          · exact Or.inr (Or.inl (by simpa using h2))
        · exact Or.inl (by simpa using h1)
      · simp [merge_files, pyIndex, pyDelIdx, h3] at h

/-- C10 witness: concrete evaluation — a one-element list whose file name has
only two `_`-separated fields raises `IndexError`. -/
theorem merge_files_partiality_witness :
    (pySplit "_".data "ab_cd.root".data).length < 4 ∧
    merge_files okEnv ["ab_cd.root".data] "res".data = Except.error PyErr.indexError :=
  ⟨by decide, merge_files_partiality.2.1 okEnv "res".data "ab_cd.root".data [] (by decide)⟩

/-- Relative tolerance on aggregate event counts (`mc_postprocess.py` line 10,
`EVENT_THRESHOLD = 0.05`, modelled as the exact rational). -/
def EVENT_THRESHOLD : ℚ := 5 / 100

/-- The minitree output table of `mc_postprocess.py` lines 11-15, in insertion
order. -/
def MINITREE_OUTPUTS : List (PyStr × PyStr) :=
  [("Basics".data, "Basics.root".data),
   ("Fundamentals".data, "Fundamentals.root".data),
   ("DoubleScatter".data, "DoubleScatter.root".data),
   ("LargestPeakProperties".data, "LargestPeakProperties.root".data),
   ("TotalProperties".data, "TotalProperties.root".data)]

/-- Lines 124-131 of `mc_postprocess.py`: walk the output groups in order and,
at the first group whose discovered-file count differs from the job count,
report that group and `return 1`; later groups are not examined.  Returns the
reported group's name, or `none` when every count matches. -/
def count_check (jobs : Nat) : List (PyStr × List PyStr) → Option PyStr
  | [] => none
  | (name, files) :: rest =>
    if files.length ≠ jobs then some name else count_check jobs rest

/-- The tolerance comparison of `mc_postprocess.py` lines 144, 155 and 166:
`abs(events - total_events) > EVENT_THRESHOLD * float(events)` (the float
arithmetic is modelled as exact rational arithmetic). -/
def tolerance_failure (events totalEvents : Int) : Bool :=
  decide (|(events : ℚ) - (totalEvents : ℚ)| > EVENT_THRESHOLD * (events : ℚ))

/-- Sum of the per-file record counts of one group, with the per-file counts
read through the `records` oracle (the `ROOT.TFile.Open ... GetEntries()`
reads of `mc_postprocess.py` lines 137-142, 151-154 and 162-165). -/
def group_total (records : PyStr → Int) (files : List PyStr) : Int :=
  (files.map records).sum

/-- Lines 133-171 of `mc_postprocess.py`, folded into one uniform pass: every
output group's summed record count is compared against the requested events
and an out-of-tolerance group produces a stderr warning.  The three source
blocks (Geant-style groups, `PAX ROOT`, minitrees) all have this shape; the
result is the list of warned group names and nothing else — no exit code. -/
def tolerance_warnings (records : PyStr → Int) (events : Int)
    (groups : List (PyStr × List PyStr)) : List PyStr :=
  (groups.filter (fun g => tolerance_failure events (group_total records g.2))).map
    (fun g => g.1)

/-- Lines 175-178 of `mc_postprocess.py`: merge the groups in order; when
`merge_files` reports failure for a group, write the "Can't merge ..., exiting"
message and `return 1` — later groups are not merged.  Returns the exit code
(`none` = fell through) together with the names of the groups successfully
merged. -/
def merge_loop (envOf : PyStr → MergeEnv) (result_dir : PyStr) :
    List (PyStr × List PyStr) → Except PyErr (Option Int × List PyStr)
  | [] => Except.ok (none, [])
  | (name, files) :: rest =>
    match merge_files (envOf name) files result_dir with
    | Except.error e => Except.error e
    | Except.ok true =>
      match merge_loop envOf result_dir rest with
      | Except.error e => Except.error e
      | Except.ok (code, merged) => Except.ok (code, name :: merged)
    | Except.ok false => Except.ok (some 1, [])

/-- Lines 124-178 of `mc_postprocess.py` in sequence: the per-group file-count
check (any mismatch exits 1 at once), then the tolerance warnings, then the
per-group merge loop.  Result: (warned group names, exit code with `none`
meaning fall-through, names of merged groups). -/
def run_tail (records : PyStr → Int) (envOf : PyStr → MergeEnv) (result_dir : PyStr)
    (events : Int) (jobs : Nat) (groups : List (PyStr × List PyStr)) :
    Except PyErr (List PyStr × Option Int × List PyStr) :=
  match count_check jobs groups with
  | some _ => Except.ok ([], some 1, [])
  | none =>
    let warns := tolerance_warnings records events groups
    match merge_loop envOf result_dir groups with
    | Except.error e => Except.error e
    | Except.ok (code, merged) => Except.ok (warns, code, merged)

/-- Helper: when some group's file count mismatches, the count check of
lines 124-131 reports a group. -/
theorem count_check_isSome {jobs : Nat} :
    ∀ {groups : List (PyStr × List PyStr)}, (∃ g ∈ groups, g.2.length ≠ jobs) →
      (count_check jobs groups).isSome = true := by
  intro groups h
  induction groups with
  | nil => simp at h
  | cons g rest ih =>
    rcases g with ⟨name, files⟩
    by_cases hf : files.length ≠ jobs
    · simp [count_check, hf]
    · rcases h with ⟨g, hg, hne⟩
      rcases List.mem_cons.mp hg with heq | hmem
      · subst heq; exact absurd hne hf
      · simpa [count_check, hf] using ih ⟨g, hmem, hne⟩

/-- C1 counterexample: with jobs = 2, group `A` holding 1 file and group `B`
holding 2, the run exits 1 at `A` and group `B` — although its count matches
the job count — is neither validated further nor merged: the merged list is
empty, refuting "processing continues with the remaining groups". -/
theorem count_mismatch_aborts_all :
    run_tail (fun _ => 0) (fun _ => okEnv) "res".data 100 2
        [("A".data, ["f1".data]), ("B".data, ["f1".data, "f2".data])]
      = Except.ok ([], some 1, []) ∧
    ("B".data, ["f1".data, "f2".data]).2.length = 2 :=
  ⟨rfl, rfl⟩

/-- C1 amended: when any output group's discovered file count differs from
the expected job count, `run_main`'s tail reports the first such group and
exits 1 immediately: no tolerance warnings are produced, no group (matching
or not) is merged, and later groups are not examined. -/
theorem count_mismatch_halts_run (records : PyStr → Int) (envOf : PyStr → MergeEnv)
    (rd : PyStr) (events : Int) (jobs : Nat) (groups : List (PyStr × List PyStr))
    (h : ∃ g ∈ groups, g.2.length ≠ jobs) :
    run_tail records envOf rd events jobs groups = Except.ok ([], some 1, []) := by
  rcases Option.isSome_iff_exists.mp (count_check_isSome h) with ⟨nm, hnm⟩
  simp [run_tail, hnm]

/-- C1 witness: the amended theorem applied to one group with 0 files against
3 expected jobs. -/
theorem count_mismatch_halts_run_witness :
    (∃ g ∈ [("A".data, ([] : List PyStr))], g.2.length ≠ 3) ∧
    run_tail (fun _ => 0) (fun _ => okEnv) "r".data 5 3 [("A".data, [])]
      = Except.ok ([], some 1, []) :=
  ⟨⟨("A".data, []), by simp⟩,
   count_mismatch_halts_run _ _ _ _ _ _ ⟨("A".data, []), by simp⟩⟩

/-- C5 counterexample: two groups pass the file-count stage; the merge of
group `A` fails (`hadd` exits non-zero), and the loop of lines 175-178
returns 1 at once — group `B`, whose own merge would succeed, is never
merged, refuting "every remaining group is still merged". -/
theorem merge_failure_aborts_rest :
    merge_loop (fun name => if name = "A".data then failHaddEnv else okEnv) "res".data
        [("A".data, ["a_b_c_d.root".data]), ("B".data, ["a_b_c_e.root".data])]
      = Except.ok (some 1, []) ∧
    merge_files okEnv ["a_b_c_e.root".data] "res".data = Except.ok true :=
  ⟨rfl, rfl⟩

/-- C5 amended: when the groups before `g` all merge successfully and `g`'s
merge fails (merge command failure, missing results directory, missing
combined file, or failed move), the merge loop stops at `g` with exit code 1:
exactly the groups before `g` are merged and the groups after `g` never are. -/
theorem merge_failure_halts_merging (envOf : PyStr → MergeEnv) (rd : PyStr)
    (pre : List (PyStr × List PyStr)) (g : PyStr × List PyStr)
    (rest : List (PyStr × List PyStr))
    (hpre : ∀ p ∈ pre, merge_files (envOf p.1) p.2 rd = Except.ok true)
    (hg : merge_files (envOf g.1) g.2 rd = Except.ok false) :
    merge_loop envOf rd (pre ++ g :: rest)
      = Except.ok (some 1, pre.map (fun p => p.1)) := by
  induction pre with
  | nil =>
    rcases g with ⟨name, files⟩
    simp only [List.nil_append, merge_loop]
    rw [hg]
    rfl
  | cons p ps ih =>
    rcases p with ⟨name, files⟩
    have h1 : merge_files (envOf name) files rd = Except.ok true :=
      hpre (name, files) (List.mem_cons_self _ _)
    simp only [List.cons_append, merge_loop, List.append_eq]
    rw [h1, ih (fun q hq => hpre q (List.mem_cons_of_mem _ hq))]
    rfl

/-- C5 witness: the amended theorem at a concrete run — group `P` merges,
group `Q` fails, group `R` follows; the loop exits 1 having merged only `P`. -/
theorem merge_failure_halts_merging_witness :
    merge_loop (fun name => if name = "Q".data then failHaddEnv else okEnv) "res".data
        [("P".data, ["a_b_c_d.root".data]), ("Q".data, ["a_b_c_e.root".data]),
         ("R".data, ["a_b_c_f.root".data])]
      = Except.ok (some 1, ["P".data]) :=
  merge_failure_halts_merging _ _ [("P".data, ["a_b_c_d.root".data])]
    ("Q".data, ["a_b_c_e.root".data]) [("R".data, ["a_b_c_f.root".data])]
    (by intro p hp; simp only [List.mem_singleton] at hp; subst hp; rfl) rfl

/-- C6: the tolerance verdict of `mc_postprocess.py` is
`|sum − expected| > 0.05 × expected` exactly (stated for all expected/summed
counts, so in particular for expected 1000: sum 960 passes at 4%, sum 900
fails at 10%), and a tolerance failure is a warning only — the exit code and
the merged-group list of the validation/merge tail are independent of the
record counts and the expected total. -/
theorem tolerance_is_warning_only :
    (∀ events total : Int,
        tolerance_failure events total = true ↔
          |(total : ℚ) - (events : ℚ)| > 5 / 100 * (events : ℚ)) ∧
    tolerance_failure 1000 960 = false ∧
    tolerance_failure 1000 900 = true ∧
    (∀ records records2 : PyStr → Int, ∀ envOf : PyStr → MergeEnv, ∀ rd : PyStr,
      ∀ events events2 : Int, ∀ jobs : Nat, ∀ groups : List (PyStr × List PyStr),
        (run_tail records envOf rd events jobs groups).map (fun r => (r.2.1, r.2.2)) =
        (run_tail records2 envOf rd events2 jobs groups).map (fun r => (r.2.1, r.2.2))) := by
  refine ⟨fun events total => ?_, by norm_num [tolerance_failure, EVENT_THRESHOLD],
    by norm_num [tolerance_failure, EVENT_THRESHOLD], ?_⟩
  · rw [tolerance_failure, EVENT_THRESHOLD, decide_eq_true_iff, abs_sub_comm]
  · intro records records2 envOf rd events events2 jobs groups
    cases hc : count_check jobs groups with
    | some nm => simp [run_tail, hc]
    | none =>
      cases hm : merge_loop envOf rd groups with
      | error e => simp [run_tail, hc, hm]
      | ok r => simp [run_tail, hc, hm, Except.map]

/-- Lines 47-49 of `BatchMergeTruthAndProcessed.py`: the occupancy ceiling is
64, overridden to 200 when `IfPublicNode` is falsy (0 selects the private
partition class; 1 public; 2 the secondary public class). -/
def MaxNumJob (ifPublicNode : Int) : Nat :=
  if ifPublicNode = 0 then 200 else 64

/-- One occupancy query of lines 135-140: the shell status of the
`squeue | wc -l` pipeline and the line count it printed. -/
structure Poll where
  status : Int
  output : Int
  deriving DecidableEq

/-- Observable actions of the batch script: occupancy polls, the two sleeps
(30 resp. 1 time units), `sbatch` dispatches, and creation/removal of the
temporary workspace root. -/
inductive Ev
  | poll
  | sleepLong
  | sleepShort
  | dispatch (id : PyStr)
  | mkTmp
  | rmTmp
  deriving DecidableEq

/-- The `while IfSubmitted==0` loop of lines 128-150 for one job, driven by a
finite trace of occupancy-query results (the real loop polls forever; an
exhausted trace ends the run un-dispatched).  Each iteration polls once; on
`Status==0 and Output<MaxNumJob` it dispatches and sleeps 1, otherwise it
sleeps 30 and re-polls.  Returns (events, whether dispatched, unconsumed
trace). -/
def submitOne (maxJob : Nat) (id : PyStr) : List Poll → List Ev × Bool × List Poll
  | [] => ([], false, [])
  | p :: rest =>
    if p.status = 0 ∧ p.output < (maxJob : Int) then
      ([Ev.poll, Ev.dispatch id, Ev.sleepShort], true, rest)
    else
      let r := submitOne maxJob id rest
      (Ev.poll :: Ev.sleepLong :: r.1, r.2.1, r.2.2)

/-- The submission for-loop of lines 82-150 over the matched identifiers, in
order: each job's throttle loop must dispatch before the next job is
considered; if the trace runs out first, no further job is processed. -/
def submitAll (maxJob : Nat) : List PyStr → List Poll → List Ev × List Poll
  | [], trace => ([], trace)
  | id :: ids, trace =>
    let r := submitOne maxJob id trace
    if r.2.1 then
      let r2 := submitAll maxJob ids r.2.2
      (r.1 ++ r2.1, r2.2)
    else (r.1, r.2.2)

/-- The identifiers dispatched in an event list, in order of dispatch. -/
def dispatched : List Ev → List PyStr
  | [] => []
  | Ev.dispatch id :: es => id :: dispatched es
  | Ev.poll :: es => dispatched es
  | Ev.sleepLong :: es => dispatched es
  | Ev.sleepShort :: es => dispatched es
  | Ev.mkTmp :: es => dispatched es
  | Ev.rmTmp :: es => dispatched es

/-- C2: per iteration of the throttle loop, the job is dispatched iff the
occupancy query reports status 0 and a count strictly below the ceiling —
`MaxNumJob` being 64 for the public partition classes and 200 for the
private class — followed by the 1-unit sleep; in every other case the
iteration sleeps 30 units and re-polls without dispatching. -/
theorem throttle_step_spec :
    (∀ ifPublicNode : Int, ifPublicNode = 0 → MaxNumJob ifPublicNode = 200) ∧
    (∀ ifPublicNode : Int, ifPublicNode ≠ 0 → MaxNumJob ifPublicNode = 64) ∧
    (∀ (maxJob : Nat) (id : PyStr) (p : Poll) (rest : List Poll),
      p.status = 0 → p.output < (maxJob : Int) →
        submitOne maxJob id (p :: rest)
          = ([Ev.poll, Ev.dispatch id, Ev.sleepShort], true, rest)) ∧
    (∀ (maxJob : Nat) (id : PyStr) (p : Poll) (rest : List Poll),
      ¬ (p.status = 0 ∧ p.output < (maxJob : Int)) →
        submitOne maxJob id (p :: rest)
          = (Ev.poll :: Ev.sleepLong :: (submitOne maxJob id rest).1,
             (submitOne maxJob id rest).2.1, (submitOne maxJob id rest).2.2)) := by
  refine ⟨fun n h => by simp [MaxNumJob, h], fun n h => by simp [MaxNumJob, h],
    fun maxJob id p rest h1 h2 => ?_, fun maxJob id p rest h => ?_⟩
  · simp [submitOne, h1, h2]
  · simp [submitOne, h]

/-- C2 witness: the dispatch branch applied at status 0, occupancy 10,
ceiling 64 = `MaxNumJob 1`. -/
theorem throttle_step_spec_witness :
    (0 : Int) = 0 ∧ (10 : Int) < ((MaxNumJob 1 : Nat) : Int) ∧
    submitOne (MaxNumJob 1) "a".data [⟨0, 10⟩]
      = ([Ev.poll, Ev.dispatch "a".data, Ev.sleepShort], true, []) :=
  ⟨rfl, by decide,
   throttle_step_spec.2.2.1 (MaxNumJob 1) "a".data ⟨0, 10⟩ [] rfl (by decide)⟩

/-- Helper: one throttle loop dispatches its own job (once) or nothing. -/
theorem dispatched_submitOne (maxJob : Nat) (id : PyStr) :
    ∀ trace : List Poll,
      dispatched (submitOne maxJob id trace).1
        = if (submitOne maxJob id trace).2.1 then [id] else [] := by
  intro trace
  induction trace with
  | nil => rfl
  | cons p rest ih =>
    by_cases h : p.status = 0 ∧ p.output < (maxJob : Int)
    · simp [submitOne, h, dispatched]
    · simp [submitOne, h, dispatched, ih]

/-- Helper: `dispatched` distributes over concatenation. -/
theorem dispatched_append :
    ∀ a b : List Ev, dispatched (a ++ b) = dispatched a ++ dispatched b := by
  intro a b
  induction a with
  | nil => rfl
  | cons e es ih => cases e <;> simp [dispatched, ih]

/-- C3: for every matched-job list and every occupancy-result trace, the jobs
dispatched by the submission loop are exactly an initial segment of the job
list in its enumeration order — job k+1 is never dispatched unless jobs
1..k were all dispatched before it, and no job is dispatched twice or out of
order. -/
theorem dispatch_order_sequential (maxJob : Nat) (jobs : List PyStr)
    (trace : List Poll) :
    ∃ n : Nat, dispatched (submitAll maxJob jobs trace).1 = jobs.take n := by
  induction jobs generalizing trace with
  | nil => exact ⟨0, rfl⟩
  | cons id ids ih =>
    by_cases h : (submitOne maxJob id trace).2.1
    · rcases ih (submitOne maxJob id trace).2.2 with ⟨n, hn⟩
      refine ⟨n + 1, ?_⟩
      simp [submitAll, h, dispatched_append, dispatched_submitOne, hn, List.take]
    · refine ⟨0, ?_⟩
      simp [submitAll, h, dispatched_submitOne]

/-- C8: with a single pending job and occupancy query results
[70, 70, 10] (all with status 0) against ceiling 64, the controller polls
exactly 3 times, dispatches on the third poll, and sleeps the 30-unit
backoff exactly twice before the dispatch. -/
theorem throttle_sequence_70_70_10 :
    submitOne 64 "a".data [⟨0, 70⟩, ⟨0, 70⟩, ⟨0, 10⟩]
      = ([Ev.poll, Ev.sleepLong, Ev.poll, Ev.sleepLong, Ev.poll,
          Ev.dispatch "a".data, Ev.sleepShort], true, []) ∧
    (submitOne 64 "a".data [⟨0, 70⟩, ⟨0, 70⟩, ⟨0, 10⟩]).1.count Ev.poll = 3 ∧
    (submitOne 64 "a".data [⟨0, 70⟩, ⟨0, 70⟩, ⟨0, 10⟩]).1.count Ev.sleepLong = 2 ∧
    dispatched (submitOne 64 "a".data [⟨0, 70⟩, ⟨0, 70⟩, ⟨0, 10⟩]).1 = ["a".data] := by
  refine ⟨by decide, by decide, by decide, by decide⟩

/-- Lines 69-71 of `BatchMergeTruthAndProcessed.py`: extract the identifier
from a truth-side file name by
`filename.split("FakeWaveform_XENON1T_")[1].split("_truth.csv")[0]`
(raising `IndexError` when the marker is absent). -/
def extractID (filename : PyStr) : Except PyErr PyStr :=
  match pyIndex (pySplit "FakeWaveform_XENON1T_".data filename) 1 with
  | Except.error e => Except.error e
  | Except.ok tail => pyIndex (pySplit "_truth.csv".data tail) 0

/-- Lines 66-71: the identifier list extracted from the truth-side listing,
in listing order. -/
def IDListOf (fileList : List PyStr) : Except PyErr (List PyStr) :=
  fileList.mapM extractID

/-- Line 95: whether one processed-side file name matches the glob pattern
`"FakeWaveform_XENON1T_" + ID + "*.root"` — the literal marker and
identifier, then anything, then `.root`. -/
def globMatches (id f : PyStr) : Bool :=
  pyStartswith ("FakeWaveform_XENON1T_".data ++ id) f &&
  pyEndswith ".root".data (f.drop ("FakeWaveform_XENON1T_".data ++ id).length)

/-- Lines 95-98: an identifier is retained exactly when the processed-side
glob returns at least one file (`continue` on zero matches); the surviving
identifiers keep the truth-side enumeration order. -/
def correlate (ids : List PyStr) (processed : List PyStr) : List PyStr :=
  ids.filter (fun i => processed.any (fun f => globMatches i f))

/-- C4 counterexample: the two truth files for identifiers `1` and `10` and a
single processed file for identifier `10`: the glob for identifier `1` also
matches that file (`1` is a prefix of `10`), so both identifiers are
retained and the correlation result has 2 elements, exceeding
min(|A|,|B|) = 1. -/
theorem correlate_min_bound_fails :
    IDListOf ["FakeWaveform_XENON1T_1_truth.csv".data,
              "FakeWaveform_XENON1T_10_truth.csv".data]
      = Except.ok ["1".data, "10".data] ∧
    correlate ["1".data, "10".data] ["FakeWaveform_XENON1T_10_a.root".data]
      = ["1".data, "10".data] ∧
    ¬ (correlate ["1".data, "10".data]
        ["FakeWaveform_XENON1T_10_a.root".data]).length ≤
      min (["1".data, "10".data] : List PyStr).length
          (["FakeWaveform_XENON1T_10_a.root".data] : List PyStr).length := by
  refine ⟨rfl, rfl, by decide⟩

/-- C4 amended: the Correlator's result is exactly the set of identifiers in
A with at least one processed-side glob match in B (zero-match identifiers
dropped without failing, multi-match identifiers kept — the first returned
match is used), and its size is at most |A|; the bound min(|A|,|B|) does not
hold in general, because one processed file can glob-match several
identifiers when one identifier is a prefix of another. -/
theorem correlate_spec (ids processed : List PyStr) :
    (∀ i, i ∈ correlate ids processed ↔
      i ∈ ids ∧ ∃ f ∈ processed, globMatches i f = true) ∧
    (correlate ids processed).length ≤ ids.length := by
  constructor
  · intro i
    simp [correlate, List.mem_filter, List.any_eq_true]
  · exact List.length_filter_le _ _

/-- The per-run configuration slice of `BatchMergeTruthAndProcessed.py`
relevant to the workspace lifecycle: the `ArrayOutput` flag (argv[8]) and
`save_ap` (argv[10]), which is only bound when an 11th argument is given
(lines 34-41). -/
structure BatchCfg where
  arrayOutput : Int
  save_ap : Option PyStr

/-- Terminal status of one batch run: fell off the end of the script, died
with an uncaught Python exception, or is still inside the throttle loop when
the injected occupancy trace ends (the real loop would poll forever). -/
inductive Outcome
  | completed
  | raised (e : PyErr)
  | stuck
  deriving DecidableEq

/-- The submission for-loop (lines 82-150) as seen by the workspace
lifecycle: identifiers without a processed-side match are skipped
(line 96-97 `continue`); in array-output mode with no 11th argument the
script-writing line 122 references the unbound name `save_ap` and raises
`NameError`; otherwise the job runs its throttle loop and the next job
follows once it dispatches. -/
def batchJobs (cfg : BatchCfg) (hasMatch : PyStr → Bool) (maxJob : Nat) :
    List PyStr → List Poll → List Ev × Outcome
  | [], _ => ([], Outcome.completed)
  | id :: ids, trace =>
    if !hasMatch id then batchJobs cfg hasMatch maxJob ids trace
    else if cfg.arrayOutput ≠ 0 ∧ cfg.save_ap = none then
      ([], Outcome.raised PyErr.nameError)
    else
      let r := submitOne maxJob id trace
      if r.2.1 then
        let r2 := batchJobs cfg hasMatch maxJob ids r.2.2
        (r.1 ++ r2.1, r2.2)
      else (r.1, Outcome.stuck)

/-- The whole batch run, lines 74-154: create the temporary workspace root,
run the submission loop, and — only when the script reaches its last line —
remove the temporary root (`rm -rf TmpPath`, line 154).  There is no
try/finally: a raised exception or a never-terminating throttle loop leaves
the temporary root behind. -/
def batchRun (cfg : BatchCfg) (hasMatch : PyStr → Bool) (maxJob : Nat)
    (ids : List PyStr) (trace : List Poll) : List Ev × Outcome :=
  match batchJobs cfg hasMatch maxJob ids trace with
  | (evs, Outcome.completed) => (Ev.mkTmp :: evs ++ [Ev.rmTmp], Outcome.completed)
  | (evs, o) => (Ev.mkTmp :: evs, o)

/-- C9 counterexample: array-output mode with only 9 command-line arguments
(`ArrayOutput = 1`, `save_ap` unbound) and one matched identifier: the run
dies with `NameError` at the first job's script-writing step and the
temporary workspace root is never removed — `rmTmp` does not occur on this
exit path, refuting "deleted on every exit path". -/
theorem cleanup_skipped_on_error :
    batchRun ⟨1, none⟩ (fun _ => true) 64 ["a".data] [⟨0, 10⟩]
      = ([Ev.mkTmp], Outcome.raised PyErr.nameError) ∧
    Ev.rmTmp ∉ (batchRun ⟨1, none⟩ (fun _ => true) 64 ["a".data] [⟨0, 10⟩]).1 := by
  refine ⟨by decide, by decide⟩

/-- C9 amended: the temporary workspace root is deleted as the final action
of a run that completes normally (files already moved to final output are
untouched — line 154 removes only `TmpPath`); a run that aborts early with
an uncaught exception, or that never leaves the throttle loop, skips the
deletion. -/
theorem cleanup_on_completion (cfg : BatchCfg) (hasMatch : PyStr → Bool)
    (maxJob : Nat) (ids : List PyStr) (trace : List Poll)
    (h : (batchRun cfg hasMatch maxJob ids trace).2 = Outcome.completed) :
    (batchRun cfg hasMatch maxJob ids trace).1.getLast? = some Ev.rmTmp := by
  rcases hr : batchJobs cfg hasMatch maxJob ids trace with ⟨evs, o⟩
  cases o with
  | completed =>
    simp only [batchRun, hr]
    rw [show Ev.mkTmp :: evs ++ [Ev.rmTmp] = (Ev.mkTmp :: evs) ++ [Ev.rmTmp] from rfl]
    exact List.getLast?_concat _
  | raised e => simp only [batchRun, hr] at h; exact absurd h (by simp)
  | stuck => simp only [batchRun, hr] at h; exact absurd h (by simp)

/-- C9 witness: a run with no identifiers completes and its last event is the
workspace removal. -/
theorem cleanup_on_completion_witness :
    (batchRun ⟨0, none⟩ (fun _ => true) 64 [] []).1.getLast? = some Ev.rmTmp :=
  cleanup_on_completion ⟨0, none⟩ (fun _ => true) 64 [] [] rfl

/-- A Python value, as carried in the tuples of `mc_postprocess.py`. -/
inductive PyVal
  | int (n : Int)
  | str (s : PyStr)
  | pyNone
  deriving DecidableEq

/-- The decimal number denoted by a digit string. -/
def digitsToNat (ds : PyStr) : Nat :=
  List.foldl (fun a c => a * 10 + (c.toNat - 48)) 0 ds

/-- `re.search(r'events="(\d+)"', line)` of line 36: the first occurrence of
the literal `events="` followed by at least one digit and a closing quote;
a failed candidate resumes scanning at the next position. -/
def findEventsNum : PyStr → Option Nat
  | [] => none
  | c :: cs =>
    if pyStartswith "events=\"".data (c :: cs) then
      match ((c :: cs).drop 8).takeWhile Char.isDigit with
      | [] => findEventsNum cs
      | d :: ds =>
        if (((c :: cs).drop 8).drop (d :: ds).length).take 1 = ['"'] then
          some (digitsToNat (d :: ds))
        else findEventsNum cs
    else findEventsNum cs

/-- The non-greedy capture `(.*?)"`: the characters before the next `"`,
failing at a newline (Python `.` does not match a newline) or end of input. -/
def captureToQuote : PyStr → Option PyStr
  | [] => none
  | c :: cs =>
    if c = '"' then some []
    else if c = '\n' then none
    else
      match captureToQuote cs with
      | some r => some (c :: r)
      | none => none

/-- `re.search(r'flavor="(.*?)"', head)` of line 40, over the first 1024
characters of the dag file. -/
def findFlavor : PyStr → Option PyStr
  | [] => none
  | c :: cs =>
    if pyStartswith "flavor=\"".data (c :: cs) then
      match captureToQuote ((c :: cs).drop 8) with
      | some r => some r
      | none => findFlavor cs
    else findFlavor cs

/-- Lines 33-35: one job per line starting with `JOB`. -/
def countJobs (lines : List PyStr) : Nat :=
  (lines.filter (fun l => pyStartswith "JOB".data l)).length

/-- Lines 36-38: sum of the `events="..."` numbers over all lines. -/
def sumEvents (lines : List PyStr) : Nat :=
  (lines.map (fun l => (findEventsNum l).getD 0)).sum

/-- The dag file's raw content: its lines joined by newlines. -/
def dagContent (lines : List PyStr) : PyStr :=
  pyJoin ['\n'] lines

/-- `get_dag_information(dag_filename)` of lines 18-43.  Its docstring
promises the 3-tuple `(jobs, events, flavor)`, but the missing-file branch at
line 31 returns the 2-tuple `(jobs, events)`; tuples are embedded as
`List PyVal` so the arity stays observable. -/
def get_dag_information (fileExists : Bool) (lines : List PyStr) : List PyVal :=
  if !fileExists then [PyVal.int 0, PyVal.int 0]
  else
    [PyVal.int (countJobs lines), PyVal.int (sumEvents lines),
     match findFlavor ((dagContent lines).take 1024) with
     | some f => PyVal.str f
     | none => PyVal.pyNone]

/-- `a, b, c = t` (line 88): raises `ValueError` unless the tuple has exactly
three items. -/
def pyUnpack3 (t : List PyVal) : Except PyErr (PyVal × PyVal × PyVal) :=
  match t with
  | [a, b, c] => Except.ok (a, b, c)
  | _ => Except.error PyErr.valueError

/-- `entry, suffix = key` where `key` is a string (line 116 iterates the
`MINITREE_OUTPUTS` dict, yielding its keys): unpacking a string of length ≠ 2
into two targets raises `ValueError`. -/
def pyUnpackStr2 (s : PyStr) : Except PyErr (Char × Char) :=
  match s with
  | [a, b] => Except.ok (a, b)
  | _ => Except.error PyErr.valueError

/-- `x == 0` on a Python value (lines 89 and 92): integer comparison, and
`False` for non-numbers. -/
def pyEqZero : PyVal → Bool
  | PyVal.int n => n == 0
  | _ => false

/-- The integer carried by a Python value; on every path that reaches its
uses in `run_main` the value was built by `get_dag_information` as an int. -/
def pyIntVal : PyVal → Int
  | PyVal.int n => n
  | _ => 0

/-- A value of the `root_files` dict: normally the pair `([], suffix)`; the
`'Geant ROOT'` entry of line 115 ends in a trailing comma, so it is the
1-tuple `(([], suffix),)`. -/
inductive GroupEntry
  | pair (files : List PyStr) (suffix : PyStr)
  | oneTuple (files : List PyStr) (suffix : PyStr)
  deriving DecidableEq

/-- `root_files[root_type][1]` at line 121: index 1 of a pair is its suffix;
index 1 of the 1-tuple raises `IndexError`. -/
def entrySuffix : GroupEntry → Except PyErr PyStr
  | GroupEntry.pair _ s => Except.ok s
  | GroupEntry.oneTuple _ _ => Except.error PyErr.indexError

/-- Appending a discovered file to a group's file list (line 122). -/
def entryAppend (f : PyStr) : GroupEntry → GroupEntry
  | GroupEntry.pair fs s => GroupEntry.pair (fs ++ [f]) s
  | GroupEntry.oneTuple fs s => GroupEntry.oneTuple (fs ++ [f]) s

/-- The file list of a group entry (`root_files[...][0]` for a pair). -/
def entryFiles : GroupEntry → List PyStr
  | GroupEntry.pair fs _ => fs
  | GroupEntry.oneTuple fs _ => fs

/-- The inner loop of lines 120-122 for one directory entry: each group's
suffix is read via index 1 (raising at the Geant 1-tuple) and the file is
appended to every group whose suffix it ends with. -/
def discoverStep (f : PyStr) :
    List (PyStr × GroupEntry) → Except PyErr (List (PyStr × GroupEntry))
  | [] => Except.ok []
  | (name, e) :: rest =>
    match entrySuffix e with
    | Except.error err => Except.error err
    | Except.ok suf =>
      match discoverStep f rest with
      | Except.error err => Except.error err
      | Except.ok rest2 =>
        Except.ok ((name, if pyEndswith suf f then entryAppend f e else e) :: rest2)

/-- Lines 119-122: sort the output-directory listing into the groups. -/
def discover (groups : List (PyStr × GroupEntry)) :
    List PyStr → Except PyErr (List (PyStr × GroupEntry))
  | [] => Except.ok groups
  | f :: fs =>
    match discoverStep f groups with
    | Except.error err => Except.error err
    | Except.ok g2 => discover g2 fs

/-- Lines 102-113: the flavor dispatch, fixing the Geant suffix and the
flavor-specific extra group; an unknown or missing flavor makes `run_main`
report `MC flavor unknown` and return 1. -/
def flavorChoice : PyVal → Option (PyStr × List (PyStr × GroupEntry))
  | PyVal.str f =>
    if f = "NEST".data then
      some ("NEST.root".data,
            [("Patch ROOT".data, GroupEntry.pair [] "Patch.root".data)])
    else if f = "G4".data then
      some ("G4.root".data,
            [("Sort ROOT".data, GroupEntry.pair [] "Sort.root".data)])
    else if f = "G4p10".data then
      some ("G4p10.root".data,
            [("Sort ROOT".data, GroupEntry.pair [] "Sort.root".data)])
    else none
  | _ => none

/-- The external world observed by `run_main`: the dag file, the output
directory and its listing, the per-file record counts, and the merge
environment per group. -/
structure PostEnv where
  dagExists : Bool
  dagLines : List PyStr
  outputDirExists : Bool
  listing : List PyStr
  records : PyStr → Int
  mergeEnvOf : PyStr → MergeEnv

/-- `run_main` of `mc_postprocess.py` lines 82-180: parse the dag file and
unpack the returned tuple (line 88), exit 1 on zero events, zero jobs, a
missing output directory or an unknown flavor, build the `root_files` dict
(with the line-115 1-tuple for `'Geant ROOT'`), run the line-116 minitree
iteration — which unpacks each dict key string and raises `ValueError` for
the program's actual `MINITREE_OUTPUTS`, whose keys are all longer than two
characters — then (beyond that point) discover files, and run the
validation/merge tail.  `Except.ok none` is the fall-off-the-end return
(`sys.exit(None)`, exit code 0).  The conversion of group entries to plain
file lists before `run_tail` is unobservable: `discover` raises at the
Geant 1-tuple whenever the listing is non-empty, and with an empty listing
the count check already fails at `'PAX ROOT'`. -/
def run_main (env : PostEnv) : Except PyErr (Option Int) :=
  match pyUnpack3 (get_dag_information env.dagExists env.dagLines) with
  | Except.error e => Except.error e
  | Except.ok (jobsV, eventsV, flavorV) =>
    if pyEqZero eventsV then Except.ok (some 1)
    else if pyEqZero jobsV then Except.ok (some 1)
    else if !env.outputDirExists then Except.ok (some 1)
    else
      match flavorChoice flavorV with
      | none => Except.ok (some 1)
      | some (geantSuffix, extra) =>
        let root_files : List (PyStr × GroupEntry) :=
          ("PAX ROOT".data, GroupEntry.pair [] "pax.root".data) :: extra ++
            [("Geant ROOT".data, GroupEntry.oneTuple [] geantSuffix)]
        match (MINITREE_OUTPUTS.map (fun p => p.1)).mapM pyUnpackStr2 with
        | Except.error e => Except.error e
        | Except.ok _ =>
          match discover root_files env.listing with
          | Except.error e => Except.error e
          | Except.ok disc =>
            match run_tail env.records env.mergeEnvOf "merged_results".data
                (pyIntVal eventsV) (pyIntVal jobsV).toNat
                (disc.map (fun g => (g.1, entryFiles g.2))) with
            | Except.error e => Except.error e
            | Except.ok (_, code, _) =>
              match code with
              | some c => Except.ok (some c)
              | none => Except.ok none

/-- C7: the post-processing tool does exit cleanly with code 1 on a dag
describing zero events or zero jobs, but not on a missing dag file: there
`get_dag_information` returns a 2-tuple (contradicting its own docstring
`(jobs, events, flavor)`), and the unpacking at line 88 dies with an
unhandled `ValueError`; moreover even a well-formed dag (1 job, 1000 events,
flavor NEST) never reaches normal completion, because the line-116 iteration
over `MINITREE_OUTPUTS` unpacks the key `'Basics'` into two variables and
dies with an unhandled `ValueError`, so exit code 0 on normal completion is
unreachable. -/
theorem exit_code_paths :
    (∀ lines, (get_dag_information false lines).length = 2) ∧
    run_main ⟨false, [], true, [], fun _ => 0, fun _ => okEnv⟩
      = Except.error PyErr.valueError ∧
    run_main ⟨true, ["JOB mc_1 mc.submit".data,
                     "VARS mc_1 events=\"1000\" flavor=\"NEST\"".data],
              true, [], fun _ => 0, fun _ => okEnv⟩
      = Except.error PyErr.valueError ∧
    run_main ⟨true, [], true, [], fun _ => 0, fun _ => okEnv⟩
      = Except.ok (some 1) := by
  refine ⟨fun lines => rfl, rfl, rfl, rfl⟩
